import Mathlib

/-!
Verification of the embedded-terminal and child-process-lifecycle subsystem
of the ArchInstall TUI (Rust sources `src/process_guard.rs` and
`src/components/pty_terminal.rs`).

The development shallowly embeds the subsystem:
* the child-process registry and its termination sweep (`ChildRegistry`,
  `terminate_all`), with signal delivery recorded as an explicit trace and
  process liveness supplied by an oracle `alive : Nat → Nat → Bool`
  (round index, pid);
* the `ProcessGuard` drop handler and the interrupt hook;
* the pure key encoder `key_event_to_bytes`;
* the PTY session (`PtyTerminal`) as a state record, its operations, and a
  small-step transition system over operation sequences, with OS effects
  (writes, flushes, reader-thread creation) recorded in the state.
-/

namespace ArchInstall

/-! ## Signals and the child registry (`src/process_guard.rs`) -/

/-- POSIX signals the sweep delivers. -/
inductive Signal where
  | sigterm
  | sigkill
deriving DecidableEq, Repr

/-- `ChildRegistry` (`process_guard.rs` lines 28-34): the set of tracked
child PIDs (a `HashSet<u32>`, modelled as a duplicate-free-by-construction
list) and the one-shot `cleanup_initiated` flag. -/
structure ChildRegistry where
  pids : List Nat
  cleanup_initiated : Bool
deriving DecidableEq, Repr

/-- `ChildRegistry::default()`. -/
def ChildRegistry.default : ChildRegistry := { pids := [], cleanup_initiated := false }

/-- `ChildRegistry::register` (set insert). -/
def ChildRegistry.register (pid : Nat) (reg : ChildRegistry) : ChildRegistry :=
  { reg with pids := if pid ∈ reg.pids then reg.pids else pid :: reg.pids }

/-- `ChildRegistry::unregister` (set remove). -/
def ChildRegistry.unregister (pid : Nat) (reg : ChildRegistry) : ChildRegistry :=
  { reg with pids := reg.pids.filter (fun p => p ≠ pid) }

/-- `ChildRegistry::count`. -/
def ChildRegistry.count (reg : ChildRegistry) : Nat := reg.pids.length

/-- Number of poll iterations the grace-period loop performs before the
deadline: the loop (`process_guard.rs` lines 92-107) checks
`start.elapsed() < grace_period` before each 100 ms sleep, so in the
idealised timing model round `k` starts at `100·k` ms and the loop runs
for every `k` with `100·k < graceMs`. -/
def pollRounds (graceMs : Nat) : Nat := (graceMs + 99) / 100

/-- The grace-period wait loop: starting at round `r` with `fuel` rounds
left before the deadline, returns `true` iff some polled round finds every
pid in `pids` dead (the early `return` at lines 100-104). -/
def graceWait (alive : Nat → Nat → Bool) (pids : List Nat) : Nat → Nat → Bool
  | _, 0 => false
  | r, fuel + 1 =>
    if pids.all (fun p => ! alive r p) then true
    else graceWait alive pids (r + 1) fuel

/-- `ChildRegistry::terminate_all` (`process_guard.rs` lines 63-121).
Returns the updated registry and the trace of signals sent, in order.
Liveness probes of poll round `k` consult `alive k`; the post-deadline
SIGKILL pass (lines 110-117) probes at round `pollRounds graceMs`. -/
def ChildRegistry.terminate_all (alive : Nat → Nat → Bool) (graceMs : Nat)
    (reg : ChildRegistry) : ChildRegistry × List (Nat × Signal) :=
  if reg.cleanup_initiated then (reg, [])
  else
    let reg1 : ChildRegistry := { reg with cleanup_initiated := true }
    if reg1.pids.isEmpty then (reg1, [])
    else
      let pidsToKill := reg1.pids
      let termSigs := pidsToKill.map (fun p => (p, Signal.sigterm))
      let fuel := pollRounds graceMs
      if graceWait alive pidsToKill 0 fuel then
        ({ reg1 with pids := [] }, termSigs)
      else
        let survivors := pidsToKill.filter (fun p => alive fuel p)
        ({ reg1 with pids := [] },
          termSigs ++ survivors.map (fun p => (p, Signal.sigkill)))

/-- A sequence of `terminate_all` calls on one registry, each with its own
liveness oracle and grace period; returns the final registry and the
concatenated signal trace. -/
def terminateSeq (calls : List ((Nat → Nat → Bool) × Nat)) (reg : ChildRegistry) :
    ChildRegistry × List (Nat × Signal) :=
  match calls with
  | [] => (reg, [])
  | c :: rest =>
    let r1 := reg.terminate_all c.1 c.2
    let r2 := terminateSeq rest r1.1
    (r2.1, r1.2 ++ r2.2)

/-- `Duration::from_secs` in milliseconds. -/
def durationFromSecsMs (s : Nat) : Nat := s * 1000

/-- `impl Drop for ProcessGuard` (`process_guard.rs` lines 178-185):
the drop handler runs `terminate_all(Duration::from_secs(5))` on the
registry. -/
def processGuardDrop (alive : Nat → Nat → Bool) (reg : ChildRegistry) :
    ChildRegistry × List (Nat × Signal) :=
  reg.terminate_all alive (durationFromSecsMs 5)

/-- Result of the interrupt handler: updated registry, signal trace, and
the process exit code it passes to `std::process::exit`. -/
structure HookResult where
  registry : ChildRegistry
  signals : List (Nat × Signal)
  exitCode : Nat
deriving DecidableEq, Repr

/-- The closure installed by `init_signal_handlers` (`process_guard.rs`
lines 189-201): runs `terminate_all(Duration::from_secs(3))` on the global
registry, then exits with code 130 (128 + SIGINT). -/
def interruptHookHandler (alive : Nat → Nat → Bool) (reg : ChildRegistry) : HookResult :=
  let r := reg.terminate_all alive (durationFromSecsMs 3)
  { registry := r.1, signals := r.2, exitCode := 130 }

/-! ### Registry lemmas -/

/-- A call on a registry whose flag is already set is a complete no-op. -/
theorem terminate_all_of_initiated (alive : Nat → Nat → Bool) (g : Nat)
    (reg : ChildRegistry) (h : reg.cleanup_initiated = true) :
    reg.terminate_all alive g = (reg, []) := by
  simp [ChildRegistry.terminate_all, h]

/-- Every call leaves the one-shot flag set. -/
theorem terminate_all_sets_flag (alive : Nat → Nat → Bool) (g : Nat)
    (reg : ChildRegistry) (h : reg.cleanup_initiated = false) :
    ((reg.terminate_all alive g).1).cleanup_initiated = true := by
  simp only [ChildRegistry.terminate_all, h]
  by_cases he : reg.pids.isEmpty <;>
    by_cases hw : graceWait alive reg.pids 0 (pollRounds g) <;>
      simp [he, hw]

/-- After any call, the flag is set. -/
theorem terminate_all_flag_after (alive : Nat → Nat → Bool) (g : Nat)
    (reg : ChildRegistry) :
    ((reg.terminate_all alive g).1).cleanup_initiated = true := by
  by_cases h : reg.cleanup_initiated
  · rw [terminate_all_of_initiated alive g reg h]; exact h
  · exact terminate_all_sets_flag alive g reg (by simpa using h)

/-- Closed form of a first effective sweep (flag clear, non-empty set). -/
theorem terminate_all_run (alive : Nat → Nat → Bool) (g : Nat) (reg : ChildRegistry)
    (hflag : reg.cleanup_initiated = false) (hne : reg.pids ≠ []) :
    reg.terminate_all alive g =
      ({ pids := [], cleanup_initiated := true },
        reg.pids.map (fun p => (p, Signal.sigterm)) ++
          (if graceWait alive reg.pids 0 (pollRounds g) then []
           else (reg.pids.filter (fun p => alive (pollRounds g) p)).map
                  (fun p => (p, Signal.sigkill)))) := by
  have he : reg.pids.isEmpty = false := by
    cases h : reg.pids with
    | nil => exact absurd h hne
    | cons a l => rfl
  simp only [ChildRegistry.terminate_all, hflag, Bool.false_eq_true, if_false, he]
  split
  · simp
  · rfl

/-- Once the flag is set, a whole sequence of further calls does nothing. -/
theorem terminateSeq_of_initiated (calls : List ((Nat → Nat → Bool) × Nat))
    (reg : ChildRegistry) (h : reg.cleanup_initiated = true) :
    terminateSeq calls reg = (reg, []) := by
  induction calls with
  | nil => rfl
  | cons c rest ih =>
    simp [terminateSeq, terminate_all_of_initiated c.1 c.2 reg h, ih]

/-- `register` keeps the flag. -/
theorem register_flag (q : Nat) (reg : ChildRegistry) :
    (reg.register q).cleanup_initiated = reg.cleanup_initiated := rfl

theorem foldl_register_flag (l : List Nat) (reg : ChildRegistry) :
    (l.foldl (fun r q => r.register q) reg).cleanup_initiated = reg.cleanup_initiated := by
  induction l generalizing reg with
  | nil => rfl
  | cons a l ih => simpa [List.foldl] using ih (reg.register a)

theorem register_preserves_mem (q p : Nat) (reg : ChildRegistry) (h : p ∈ reg.pids) :
    p ∈ (reg.register q).pids := by
  simp only [ChildRegistry.register]
  split <;> simp [h]

theorem register_mem_self (q : Nat) (reg : ChildRegistry) :
    q ∈ (reg.register q).pids := by
  simp only [ChildRegistry.register]
  split
  next h => simpa using h
  next => simp

theorem foldl_register_preserves_mem (l : List Nat) (reg : ChildRegistry) (p : Nat)
    (h : p ∈ reg.pids) :
    p ∈ (l.foldl (fun r q => r.register q) reg).pids := by
  induction l generalizing reg with
  | nil => exact h
  | cons a l ih => exact ih (reg.register a) (register_preserves_mem a p reg h)

theorem mem_foldl_register (l : List Nat) (reg : ChildRegistry) (p : Nat) (hp : p ∈ l) :
    p ∈ (l.foldl (fun r q => r.register q) reg).pids := by
  induction l generalizing reg with
  | nil => cases hp
  | cons a l ih =>
    rcases List.mem_cons.mp hp with h | h
    · subst h
      exact foldl_register_preserves_mem l (reg.register p) p (register_mem_self p reg)
    · exact ih (reg.register a) h

/-! ### Claim theorems for the registry -/

/-- Claim C1, counterexample: as stated, the claim calls `terminate_all` a
no-op when the tracked set is empty; on a fresh registry with no tracked
PIDs the call is not a no-op — it returns with the one-shot
`cleanup_initiated` flag consumed, a different registry state. -/
theorem terminate_all_empty_not_noop :
    ChildRegistry.terminate_all (fun _ _ => false) (durationFromSecsMs 5)
        { pids := [], cleanup_initiated := false } ≠
      ({ pids := [], cleanup_initiated := false }, []) := by decide

/-- Claim C1 (amended): `terminate_all(grace_period)` is a complete no-op
if the sweep has already run once; if the tracked PID set is empty it sends
no signals and leaves the tracked set unchanged, but still consumes the
one-shot flag; otherwise it sends SIGTERM to every tracked PID, polls
liveness in 100 ms rounds until all are gone or the grace period elapses
(`graceWait`), sends SIGKILL to exactly the PIDs still alive at the
post-deadline probe, signals no PID that was not tracked, and leaves the
tracked set empty. -/
theorem terminate_all_spec (alive : Nat → Nat → Bool) (g : Nat) (reg : ChildRegistry) :
    (reg.cleanup_initiated = true → reg.terminate_all alive g = (reg, [])) ∧
    (reg.cleanup_initiated = false → reg.pids = [] →
      reg.terminate_all alive g = ({ pids := reg.pids, cleanup_initiated := true }, [])) ∧
    (reg.cleanup_initiated = false → reg.pids ≠ [] →
      ((reg.terminate_all alive g).1 = { pids := [], cleanup_initiated := true } ∧
        (∀ p, p ∈ reg.pids → (p, Signal.sigterm) ∈ (reg.terminate_all alive g).2) ∧
        (∀ p s, (p, s) ∈ (reg.terminate_all alive g).2 → p ∈ reg.pids) ∧
        (∀ p, (p, Signal.sigkill) ∈ (reg.terminate_all alive g).2 ↔
          (graceWait alive reg.pids 0 (pollRounds g) = false ∧
            p ∈ reg.pids ∧ alive (pollRounds g) p = true)))) := by
  refine ⟨fun h => terminate_all_of_initiated alive g reg h, fun hf hp => ?_,
    fun hf hne => ?_⟩
  · simp [ChildRegistry.terminate_all, hf, hp]
  · rw [terminate_all_run alive g reg hf hne]
    refine ⟨rfl, ?_, ?_, ?_⟩
    · intro p hp
      refine List.mem_append.mpr (Or.inl ?_)
      exact List.mem_map.mpr ⟨p, hp, rfl⟩
    · intro p s hps
      rcases List.mem_append.mp hps with h | h
      · rcases List.mem_map.mp h with ⟨a, ha, he⟩
        cases he; exact ha
      · rcases hg : graceWait alive reg.pids 0 (pollRounds g) with _ | _
        · rw [hg] at h
          simp only [if_neg Bool.false_ne_true] at h
          rcases List.mem_map.mp h with ⟨a, ha, he⟩
          cases he
          exact (List.mem_filter.mp ha).1
        · rw [hg] at h
          simp at h
    · intro p
      constructor
      · intro hmem
        rcases List.mem_append.mp hmem with h | h
        · rcases List.mem_map.mp h with ⟨a, _, he⟩
          cases he
        · rcases hg : graceWait alive reg.pids 0 (pollRounds g) with _ | _
          · rw [hg] at h
            simp only [if_neg Bool.false_ne_true] at h
            rcases List.mem_map.mp h with ⟨a, ha, he⟩
            cases he
            exact ⟨rfl, (List.mem_filter.mp ha).1, (List.mem_filter.mp ha).2⟩
          · rw [hg] at h
            simp at h
      · rintro ⟨hg, hp, ha⟩
        refine List.mem_append.mpr (Or.inr ?_)
        rw [hg]
        simp only [if_neg Bool.false_ne_true]
        exact List.mem_map.mpr ⟨p, List.mem_filter.mpr ⟨hp, ha⟩, rfl⟩

/-- Witness for C1: a concrete effective sweep where the child ignores
SIGTERM, so after the 2 poll rounds of a 200 ms grace period the survivor
receives SIGKILL. -/
theorem terminate_all_spec_witness :
    (5, Signal.sigkill) ∈
      (ChildRegistry.terminate_all (fun _ _ => true) 200
          { pids := [5], cleanup_initiated := false }).2 :=
  (((terminate_all_spec (fun _ _ => true) 200
        { pids := [5], cleanup_initiated := false }).2.2
      rfl (by decide)).2.2.2 5).mpr (by decide)

/-- Claim C3: in any sequence of `terminate_all` calls on one registry,
the whole sequence is equivalent to the first call alone — the final
registry equals the one after the first call, and the concatenated signal
trace equals the trace of the first call, so no later call delivers any signal
or modifies the tracked set. -/
theorem terminateSeq_first_call_only (c : (Nat → Nat → Bool) × Nat)
    (calls : List ((Nat → Nat → Bool) × Nat)) (reg : ChildRegistry) :
    terminateSeq (c :: calls) reg = reg.terminate_all c.1 c.2 := by
  have h := terminate_all_flag_after c.1 c.2 reg
  simp [terminateSeq, terminateSeq_of_initiated calls _ h]

/-- Claim C4: dropping a `ProcessGuard` runs `terminate_all` with a grace
period of exactly 5 seconds (5000 ms); the interrupt hook runs
`terminate_all` with exactly 3 seconds (3000 ms) and then exits the
process with status 130 = 128 + SIGINT(2). -/
theorem guard_drop_and_hook_constants (alive : Nat → Nat → Bool) (reg : ChildRegistry) :
    processGuardDrop alive reg = reg.terminate_all alive 5000 ∧
    durationFromSecsMs 5 = 5000 ∧
    (interruptHookHandler alive reg).registry = (reg.terminate_all alive 3000).1 ∧
    (interruptHookHandler alive reg).signals = (reg.terminate_all alive 3000).2 ∧
    durationFromSecsMs 3 = 3000 ∧
    (interruptHookHandler alive reg).exitCode = 128 + 2 := by
  refine ⟨rfl, rfl, rfl, rfl, rfl, rfl⟩

/-- Claim C10: a first `terminate_all` on a registry with an empty tracked
set sends no signals but sets the one-shot flag; PIDs registered afterwards
are in the tracked set, yet any later `terminate_all` call returns with no
signals and the registry unchanged — the termination guarantee is
permanently consumed by the empty sweep. -/
theorem empty_sweep_consumes_guarantee (alive alive2 : Nat → Nat → Bool) (g g2 : Nat)
    (reg : ChildRegistry) (hp : reg.pids = []) (hf : reg.cleanup_initiated = false)
    (newPids : List Nat) :
    (reg.terminate_all alive g).2 = [] ∧
    ((reg.terminate_all alive g).1).cleanup_initiated = true ∧
    (∀ p ∈ newPids,
      p ∈ (newPids.foldl (fun r q => r.register q) (reg.terminate_all alive g).1).pids) ∧
    (newPids.foldl (fun r q => r.register q) (reg.terminate_all alive g).1).terminate_all
        alive2 g2 =
      (newPids.foldl (fun r q => r.register q) (reg.terminate_all alive g).1, []) := by
  refine ⟨?_, terminate_all_flag_after alive g reg, ?_, ?_⟩
  · simp [ChildRegistry.terminate_all, hf, hp]
  · intro p hpmem
    exact mem_foldl_register newPids _ p hpmem
  · apply terminate_all_of_initiated
    rw [foldl_register_flag]
    exact terminate_all_flag_after alive g reg

/-- Witness for C10: concretely, after an empty first sweep and a later
registration of PID 7, a second sweep delivers nothing and keeps PID 7
tracked. -/
theorem empty_sweep_consumes_guarantee_witness :
    ChildRegistry.terminate_all (fun _ _ => true) 3000
        ([7].foldl (fun r q => r.register q)
          ((ChildRegistry.terminate_all (fun _ _ => false) 5000
              { pids := [], cleanup_initiated := false }).1)) =
      ([7].foldl (fun r q => r.register q)
          ((ChildRegistry.terminate_all (fun _ _ => false) 5000
              { pids := [], cleanup_initiated := false }).1), []) :=
  (empty_sweep_consumes_guarantee (fun _ _ => false) (fun _ _ => true) 5000 3000
      { pids := [], cleanup_initiated := false } rfl rfl [7]).2.2.2

/-! ## Key encoder (`pty_terminal.rs` lines 376-430)

`crossterm` key events are embedded as a key code plus the two modifier
bits the encoder inspects (`CONTROL` and `ALT`); all key codes the source
does not name fall under `Other`. -/

inductive KeyCode where
  | Char (c : Char)
  | Enter
  | Backspace
  | Tab
  | Esc
  | Up
  | Down
  | Right
  | Left
  | Home
  | End
  | PageUp
  | PageDown
  | Insert
  | Delete
  | F (n : Nat)
  | Other
deriving DecidableEq, Repr

structure KeyModifiers where
  control : Bool
  alt : Bool
deriving DecidableEq, Repr

structure KeyEvent where
  code : KeyCode
  modifiers : KeyModifiers
deriving DecidableEq, Repr

/-- Rust `char::to_ascii_lowercase`. -/
def toAsciiLowercase (c : Char) : Char :=
  if 65 ≤ c.toNat ∧ c.toNat ≤ 90 then Char.ofNat (c.toNat + 32) else c

/-- Rust `char::is_ascii_lowercase`. -/
def isAsciiLowercase (c : Char) : Bool :=
  decide (97 ≤ c.toNat ∧ c.toNat ≤ 122)

/-- `char::encode_utf8`: the UTF-8 byte sequence of a scalar value. -/
def utf8Bytes (c : Char) : List Nat :=
  let n := c.toNat
  if n < 0x80 then [n]
  else if n < 0x800 then
    [0xc0 ||| (n >>> 6), 0x80 ||| (n &&& 0x3f)]
  else if n < 0x10000 then
    [0xe0 ||| (n >>> 12), 0x80 ||| ((n >>> 6) &&& 0x3f), 0x80 ||| (n &&& 0x3f)]
  else
    [0xf0 ||| (n >>> 18), 0x80 ||| ((n >>> 12) &&& 0x3f),
      0x80 ||| ((n >>> 6) &&& 0x3f), 0x80 ||| (n &&& 0x3f)]

/-- `key_event_to_bytes` (`pty_terminal.rs` lines 376-430), transcribed
arm by arm; `c as u8` is the low byte `c.toNat % 256`. -/
def key_event_to_bytes (key : KeyEvent) : List Nat :=
  let ctrl := key.modifiers.control
  let alt := key.modifiers.alt
  match key.code with
  | .Char c =>
    if ctrl then
      let cl := toAsciiLowercase c
      if isAsciiLowercase cl then [cl.toNat - 97 + 1] else []
    else if alt then
      [0x1b, c.toNat % 256]
    else
      utf8Bytes c
  | .Enter => [0x0d]
  | .Backspace => [0x7f]
  | .Tab => [0x09]
  | .Esc => [0x1b]
  | .Up => [0x1b, 0x5b, 0x41]
  | .Down => [0x1b, 0x5b, 0x42]
  | .Right => [0x1b, 0x5b, 0x43]
  | .Left => [0x1b, 0x5b, 0x44]
  | .Home => [0x1b, 0x5b, 0x48]
  | .End => [0x1b, 0x5b, 0x46]
  | .PageUp => [0x1b, 0x5b, 0x35, 0x7e]
  | .PageDown => [0x1b, 0x5b, 0x36, 0x7e]
  | .Insert => [0x1b, 0x5b, 0x32, 0x7e]
  | .Delete => [0x1b, 0x5b, 0x33, 0x7e]
  | .F n =>
    match n with
    | 1 => [0x1b, 0x4f, 0x50]
    | 2 => [0x1b, 0x4f, 0x51]
    | 3 => [0x1b, 0x4f, 0x52]
    | 4 => [0x1b, 0x4f, 0x53]
    | 5 => [0x1b, 0x5b, 0x31, 0x35, 0x7e]
    | 6 => [0x1b, 0x5b, 0x31, 0x37, 0x7e]
    | 7 => [0x1b, 0x5b, 0x31, 0x38, 0x7e]
    | 8 => [0x1b, 0x5b, 0x31, 0x39, 0x7e]
    | 9 => [0x1b, 0x5b, 0x32, 0x30, 0x7e]
    | 10 => [0x1b, 0x5b, 0x32, 0x31, 0x7e]
    | 11 => [0x1b, 0x5b, 0x32, 0x33, 0x7e]
    | 12 => [0x1b, 0x5b, 0x32, 0x34, 0x7e]
    | _ => []
  | .Other => []

/-- ASCII decimal digits of `n`, for the `ESC [ n~` rows of the spec
table. -/
def decimalBytes (n : Nat) : List Nat := (Nat.toDigits 10 n).map Char.toNat

/-- The encoding table exactly as the claim states it (spec §4.3): the
control row applies only to a lowercase letter, and "anything else" — in
particular a non-lowercase character with the control modifier — encodes
to the empty sequence. -/
def keyClaimSpec (key : KeyEvent) : List Nat :=
  match key.code, key.modifiers.control, key.modifiers.alt with
  | .Char c, true, _ => if isAsciiLowercase c then [c.toNat - 97 + 1] else []
  | .Char c, false, true => [0x1b, c.toNat % 256]
  | .Char c, false, false => utf8Bytes c
  | .Enter, _, _ => [0x0d]
  | .Backspace, _, _ => [0x7f]
  | .Tab, _, _ => [0x09]
  | .Esc, _, _ => [0x1b]
  | .Up, _, _ => [0x1b, 0x5b, 0x41]
  | .Down, _, _ => [0x1b, 0x5b, 0x42]
  | .Right, _, _ => [0x1b, 0x5b, 0x43]
  | .Left, _, _ => [0x1b, 0x5b, 0x44]
  | .Home, _, _ => [0x1b, 0x5b, 0x48]
  | .End, _, _ => [0x1b, 0x5b, 0x46]
  | .PageUp, _, _ => [0x1b, 0x5b] ++ decimalBytes 5 ++ [0x7e]
  | .PageDown, _, _ => [0x1b, 0x5b] ++ decimalBytes 6 ++ [0x7e]
  | .Insert, _, _ => [0x1b, 0x5b] ++ decimalBytes 2 ++ [0x7e]
  | .Delete, _, _ => [0x1b, 0x5b] ++ decimalBytes 3 ++ [0x7e]
  | .F 1, _, _ => [0x1b, 0x4f, 0x50]
  | .F 2, _, _ => [0x1b, 0x4f, 0x51]
  | .F 3, _, _ => [0x1b, 0x4f, 0x52]
  | .F 4, _, _ => [0x1b, 0x4f, 0x53]
  | .F 5, _, _ => [0x1b, 0x5b] ++ decimalBytes 15 ++ [0x7e]
  | .F 6, _, _ => [0x1b, 0x5b] ++ decimalBytes 17 ++ [0x7e]
  | .F 7, _, _ => [0x1b, 0x5b] ++ decimalBytes 18 ++ [0x7e]
  | .F 8, _, _ => [0x1b, 0x5b] ++ decimalBytes 19 ++ [0x7e]
  | .F 9, _, _ => [0x1b, 0x5b] ++ decimalBytes 20 ++ [0x7e]
  | .F 10, _, _ => [0x1b, 0x5b] ++ decimalBytes 21 ++ [0x7e]
  | .F 11, _, _ => [0x1b, 0x5b] ++ decimalBytes 23 ++ [0x7e]
  | .F 12, _, _ => [0x1b, 0x5b] ++ decimalBytes 24 ++ [0x7e]
  | .F _, _, _ => []
  | .Other, _, _ => []

/-- The table of the claim amended at its control row only: a character whose
ASCII-lowercasing is a lowercase letter encodes, under the control
modifier, to the single byte (lowercased letter minus 97 plus 1); any other
character with control encodes to the empty sequence. All other rows are
those of the claim. -/
def keyClaimSpecAmended (key : KeyEvent) : List Nat :=
  match key.code, key.modifiers.control, key.modifiers.alt with
  | .Char c, true, _ =>
    if isAsciiLowercase (toAsciiLowercase c) then
      [(toAsciiLowercase c).toNat - 97 + 1]
    else []
  | .Char c, false, true => [0x1b, c.toNat % 256]
  | .Char c, false, false => utf8Bytes c
  | .Enter, _, _ => [0x0d]
  | .Backspace, _, _ => [0x7f]
  | .Tab, _, _ => [0x09]
  | .Esc, _, _ => [0x1b]
  | .Up, _, _ => [0x1b, 0x5b, 0x41]
  | .Down, _, _ => [0x1b, 0x5b, 0x42]
  | .Right, _, _ => [0x1b, 0x5b, 0x43]
  | .Left, _, _ => [0x1b, 0x5b, 0x44]
  | .Home, _, _ => [0x1b, 0x5b, 0x48]
  | .End, _, _ => [0x1b, 0x5b, 0x46]
  | .PageUp, _, _ => [0x1b, 0x5b] ++ decimalBytes 5 ++ [0x7e]
  | .PageDown, _, _ => [0x1b, 0x5b] ++ decimalBytes 6 ++ [0x7e]
  | .Insert, _, _ => [0x1b, 0x5b] ++ decimalBytes 2 ++ [0x7e]
  | .Delete, _, _ => [0x1b, 0x5b] ++ decimalBytes 3 ++ [0x7e]
  | .F 1, _, _ => [0x1b, 0x4f, 0x50]
  | .F 2, _, _ => [0x1b, 0x4f, 0x51]
  | .F 3, _, _ => [0x1b, 0x4f, 0x52]
  | .F 4, _, _ => [0x1b, 0x4f, 0x53]
  | .F 5, _, _ => [0x1b, 0x5b] ++ decimalBytes 15 ++ [0x7e]
  | .F 6, _, _ => [0x1b, 0x5b] ++ decimalBytes 17 ++ [0x7e]
  | .F 7, _, _ => [0x1b, 0x5b] ++ decimalBytes 18 ++ [0x7e]
  | .F 8, _, _ => [0x1b, 0x5b] ++ decimalBytes 19 ++ [0x7e]
  | .F 9, _, _ => [0x1b, 0x5b] ++ decimalBytes 20 ++ [0x7e]
  | .F 10, _, _ => [0x1b, 0x5b] ++ decimalBytes 21 ++ [0x7e]
  | .F 11, _, _ => [0x1b, 0x5b] ++ decimalBytes 23 ++ [0x7e]
  | .F 12, _, _ => [0x1b, 0x5b] ++ decimalBytes 24 ++ [0x7e]
  | .F _, _, _ => []
  | .Other, _, _ => []

/-- The key press at which the stated table and the code disagree:
an uppercase letter with the control modifier. -/
def ctrlUpperC : KeyEvent :=
  { code := KeyCode.Char ('C'), modifiers := { control := true, alt := false } }

/-- Claim C6, counterexample: the claim maps a non-lowercase character
with the control modifier to the empty sequence, but the code lowercases
first, so Ctrl+C encodes to the single byte 0x03. -/
theorem key_encoder_claim_false_at_ctrl_upper :
    key_event_to_bytes ctrlUpperC = [3] ∧ keyClaimSpec ctrlUpperC = [] ∧
      key_event_to_bytes ctrlUpperC ≠ keyClaimSpec ctrlUpperC := by
  decide

/-- Claim C6 (amended): the key encoder is a pure total function equal to
the table of the claim with its control row widened to "any character whose
ASCII-lowercasing is a lowercase letter" (so uppercase letters are
lowercased before the Ctrl computation); every unlisted key press,
e.g. F13 or a key code the source does not name, encodes to the empty
sequence. -/
theorem key_encoder_matches_amended_table (key : KeyEvent) :
    key_event_to_bytes key = keyClaimSpecAmended key := by
  obtain ⟨code, ctrl, alt⟩ := key
  cases ctrl <;> cases alt <;> cases code <;> try rfl
  all_goals
    rename_i n
    rcases n with _|_|_|_|_|_|_|_|_|_|_|_|_|m <;> rfl

/-! ## PTY session (`src/components/pty_terminal.rs`)

The session is a state record; OS effects are made explicit in the state:
bytes written to the input stream of the child, flush count, the number of
reader threads ever started on the shared output buffer, the number of
those still live, and the number of size changes communicated to the
OS-level device (the source never performs one). OS outcomes
(pty allocation, spawn, handle acquisition, write results, `try_wait`,
reader-thread reads) are supplied by explicit environment values. -/

/-- `PtyError` (`pty_terminal.rs` lines 26-42). -/
inductive PtyError where
  | SystemCreation (e : String)
  | PtyOpen (e : String)
  | Spawn (e : String)
  | Write (e : String)
  | Read (e : String)
  | Resize (e : String)
  | NotRunning
deriving DecidableEq, Repr

/-- `portable_pty::PtySize`. -/
structure PtySize where
  rows : Nat
  cols : Nat
  pixel_width : Nat
  pixel_height : Nat
deriving DecidableEq, Repr

/-- The `vt100::Parser` as the session uses it: logical dimensions, the
scrollback bound it was created with, and the bytes fed to `process`. -/
structure Vt100State where
  rows : Nat
  cols : Nat
  scrollback : Nat
  processed : List Nat
deriving DecidableEq, Repr

/-- `vt100::Parser::set_size(rows, cols)`. -/
def Vt100State.set_size (rows cols : Nat) (p : Vt100State) : Vt100State :=
  { p with rows := rows, cols := cols }

/-- `PtyTerminal` (`pty_terminal.rs` lines 69-86), with handles as
identifiers and OS effects instrumented. -/
structure PtyTerminal where
  vt : Vt100State
  size : PtySize
  output_buffer : List Nat
  writer : Option Nat
  child : Option Nat
  running : Bool
  exit_status : Option Nat
  written : List Nat
  flushes : Nat
  readersStarted : Nat
  liveReaders : Nat
  osResizes : Nat
deriving DecidableEq, Repr

/-- `PtyTerminal::new(cols, rows)` (lines 89-105): unspawned session,
emulator of the given size with 1000 lines of scrollback. -/
def PtyTerminal.new (cols rows : Nat) : PtyTerminal :=
  { vt := { rows := rows, cols := cols, scrollback := 1000, processed := [] }
    size := { rows := rows, cols := cols, pixel_width := 0, pixel_height := 0 }
    output_buffer := []
    writer := none
    child := none
    running := false
    exit_status := none
    written := []
    flushes := 0
    readersStarted := 0
    liveReaders := 0
    osResizes := 0 }

deriving instance DecidableEq for Except

/-- Outcomes the OS presents to one `spawn_command` call: the pty-pair
allocation, the child spawn (yielding a child handle), taking the writer,
and cloning the reader. -/
structure SpawnEnv where
  openpty : Except String Nat
  spawnChild : Except String Nat
  takeWriter : Except String Nat
  cloneReader : Except String Nat
deriving DecidableEq, Repr

def SpawnEnv.allOk (env : SpawnEnv) : Bool :=
  (match env.openpty with | .ok _ => true | .error _ => false) &&
  (match env.spawnChild with | .ok _ => true | .error _ => false) &&
  (match env.takeWriter with | .ok _ => true | .error _ => false) &&
  (match env.cloneReader with | .ok _ => true | .error _ => false)

/-- `PtyTerminal::spawn_command` (lines 107-174): open the pty pair,
spawn the child, take the writer, clone the reader — failing atomically
with the corresponding `PtyError` at the first failing step — then set
`writer`, `child`, `running := true` and start one reader thread on the
shared output buffer. -/
def spawn_command (env : SpawnEnv) (t : PtyTerminal) :
    PtyTerminal × Except PtyError Unit :=
  match env.openpty with
  | .error e => (t, .error (.PtyOpen e))
  | .ok _ =>
    match env.spawnChild with
    | .error e => (t, .error (.Spawn e))
    | .ok childId =>
      match env.takeWriter with
      | .error e => (t, .error (.Write e))
      | .ok w =>
        match env.cloneReader with
        | .error e => (t, .error (.Read e))
        | .ok _ =>
          ({ t with
              writer := some w
              child := some childId
              running := true
              readersStarted := t.readersStarted + 1
              liveReaders := t.liveReaders + 1 }, .ok ())

/-- `PtyTerminal::send_input` (lines 189-199): requires a writer;
`write_all` then `flush`, each surfacing its error as `PtyError::Write`;
without a writer, `PtyError::NotRunning`. -/
def send_input (wres fres : Except String Unit) (data : List Nat) (t : PtyTerminal) :
    PtyTerminal × Except PtyError Unit :=
  match t.writer with
  | none => (t, .error .NotRunning)
  | some _ =>
    match wres with
    | .error e => (t, .error (.Write e))
    | .ok _ =>
      match fres with
      | .error e => ({ t with written := t.written ++ data }, .error (.Write e))
      | .ok _ =>
        ({ t with written := t.written ++ data, flushes := t.flushes + 1 }, .ok ())

/-- `PtyTerminal::send_key` (lines 202-208): encode, skip the write when
the encoding is empty, otherwise delegate to `send_input`. -/
def send_key (wres fres : Except String Unit) (key : KeyEvent) (t : PtyTerminal) :
    PtyTerminal × Except PtyError Unit :=
  let bytes := key_event_to_bytes key
  if bytes.isEmpty then (t, .ok ())
  else send_input wres fres bytes t

/-- `PtyTerminal::process_output` (lines 177-187): take the shared buffer
and feed it to the parser. -/
def process_output (t : PtyTerminal) : PtyTerminal :=
  { t with
      output_buffer := []
      vt := { t.vt with processed := t.vt.processed ++ t.output_buffer } }

/-- `PtyTerminal::is_running` (lines 211-237); `childWait` is the outcome
of `child.try_wait()`. -/
def is_running (childWait : Except Unit (Option Nat)) (t : PtyTerminal) :
    PtyTerminal × Bool :=
  if t.running = false then (t, false)
  else
    match t.child with
    | none => (t, false)
    | some _ =>
      match childWait with
      | .ok (some status) =>
        ({ t with exit_status := some status, running := false }, false)
      | .ok none => (t, true)
      | .error _ => ({ t with running := false }, false)

/-- `PtyTerminal::resize(cols, rows)` (lines 244-255): store the new size,
set the logical size of the parser, and return `Ok`; the OS-level device is
never informed. -/
def resize (cols rows : Nat) (t : PtyTerminal) : PtyTerminal × Except PtyError Unit :=
  ({ t with
      size := { rows := rows, cols := cols, pixel_width := 0, pixel_height := 0 }
      vt := t.vt.set_size rows cols }, .ok ())

/-- `PtyTerminal::kill` (lines 336-341): best-effort kill of the child
(ignoring the result), then `running := false`. The writer and child
fields are left in place. -/
def kill (t : PtyTerminal) : PtyTerminal := { t with running := false }

/-- One successful read of the reader-thread loop (lines 151-163):
a live reader appends the chunk to the shared buffer. -/
def readerChunk (data : List Nat) (t : PtyTerminal) : PtyTerminal :=
  if t.liveReaders = 0 then t
  else { t with output_buffer := t.output_buffer ++ data }

/-- End-of-stream or read error in the reader thread (lines 154-168):
mark not running and exit the thread. -/
def readerExit (t : PtyTerminal) : PtyTerminal :=
  if t.liveReaders = 0 then t
  else { t with running := false, liveReaders := t.liveReaders - 1 }

/-- One step of the session: an operation of the public interface or an
event of a reader thread, each carrying the OS outcomes it consumes. -/
inductive PtyOp where
  | spawnCmd (env : SpawnEnv)
  | sendInputOp (wres fres : Except String Unit) (data : List Nat)
  | sendKeyOp (wres fres : Except String Unit) (key : KeyEvent)
  | processOutputOp
  | isRunningOp (childWait : Except Unit (Option Nat))
  | resizeOp (cols rows : Nat)
  | killOp
  | readerChunkOp (data : List Nat)
  | readerExitOp
deriving DecidableEq, Repr

def step (t : PtyTerminal) (op : PtyOp) : PtyTerminal :=
  match op with
  | .spawnCmd env => (spawn_command env t).1
  | .sendInputOp w f d => (send_input w f d t).1
  | .sendKeyOp w f k => (send_key w f k t).1
  | .processOutputOp => process_output t
  | .isRunningOp cw => (is_running cw t).1
  | .resizeOp c r => (resize c r t).1
  | .killOp => kill t
  | .readerChunkOp d => readerChunk d t
  | .readerExitOp => readerExit t

/-- Run a sequence of steps. -/
def runOps (t : PtyTerminal) (ops : List PtyOp) : PtyTerminal := ops.foldl step t

/-- Whether an operation is a `spawn_command` whose every OS step
succeeds. -/
def isOkSpawn : PtyOp → Bool
  | .spawnCmd env => env.allOk
  | _ => false

/-! ## Command configuration (process groups) -/

/-- `portable_pty::CommandBuilder` as `spawn_command` configures it
(lines 113-125): program, arguments, environment, and whether any
pre-exec process-group hook has been configured on it. -/
structure CommandBuilder where
  prog : String
  args : List String
  envs : List (String × String)
  newProcessGroup : Bool
deriving DecidableEq, Repr

def CommandBuilder.new (prog : String) : CommandBuilder :=
  { prog := prog, args := [], envs := [], newProcessGroup := false }

def CommandBuilder.arg (b : CommandBuilder) (a : String) : CommandBuilder :=
  { b with args := b.args ++ [a] }

def CommandBuilder.envSet (b : CommandBuilder) (k v : String) : CommandBuilder :=
  { b with envs := b.envs ++ [(k, v)] }

def termKey : String := "TERM"
def termVal : String := "xterm-256color"
def colorTermKey : String := "COLORTERM"
def colorTermVal : String := "truecolor"
def bashProg : String := "bash"

/-- The command object `PtyTerminal::spawn_command` builds and hands to
`slave.spawn_command` (lines 113-125): the program, its arguments, and
the two environment variables — and nothing that starts a new process
group. -/
def spawnCommandBuilder (cmd : String) (args : List String) : CommandBuilder :=
  ((args.foldl (fun b a => b.arg a) (CommandBuilder.new cmd)).envSet termKey
      termVal).envSet colorTermKey colorTermVal

/-- `std::process::Command` as far as the process-group extension trait
observes it. -/
structure StdCommand where
  prog : String
  preExecNewProcessGroup : Bool
deriving DecidableEq, Repr

/-- `CommandProcessGroup::in_new_process_group` (`process_guard.rs`
lines 204-225): registers a pre-exec `setpgid(0, 0)` hook on a
`std::process::Command`. No call site exists anywhere in the repository. -/
def in_new_process_group (c : StdCommand) : StdCommand :=
  { c with preExecNewProcessGroup := true }

theorem foldl_arg_newProcessGroup (args : List String) (b : CommandBuilder) :
    (args.foldl (fun b a => b.arg a) b).newProcessGroup = b.newProcessGroup := by
  induction args generalizing b with
  | nil => rfl
  | cons a l ih => simpa using ih (b.arg a)

/-- Claim C2, code evaluation: the command object configured by
`PtyTerminal::spawn_command` carries no process-group configuration —
for the concrete spawn of `bash` and for every program and argument
list — while the (caller-less) helper of the repository itself,
`in_new_process_group` is what would have set it. -/
theorem spawn_command_builder_no_process_group :
    (spawnCommandBuilder bashProg []).newProcessGroup = false ∧
    (∀ cmd args, (spawnCommandBuilder cmd args).newProcessGroup = false) ∧
    (∀ c, (in_new_process_group c).preExecNewProcessGroup = true) := by
  refine ⟨rfl, fun cmd args => ?_, fun c => rfl⟩
  show (args.foldl (fun b a => b.arg a) (CommandBuilder.new cmd)).newProcessGroup = false
  rw [foldl_arg_newProcessGroup]
  rfl

/-! ### Spawn failure atomicity (C5) -/

/-- Claim C5: for every failing step of `spawn_command` — pty-pair
allocation, child spawn, writer acquisition, reader acquisition — the call
returns the corresponding typed error and the session state is exactly the
state before the call (in particular `readersStarted` is unchanged: no
background reader thread was started). -/
theorem spawn_command_atomic_failure (env : SpawnEnv) (t : PtyTerminal) :
    (∀ e, env.openpty = .error e → spawn_command env t = (t, .error (.PtyOpen e))) ∧
    (∀ a e, env.openpty = .ok a → env.spawnChild = .error e →
      spawn_command env t = (t, .error (.Spawn e))) ∧
    (∀ a b e, env.openpty = .ok a → env.spawnChild = .ok b →
      env.takeWriter = .error e → spawn_command env t = (t, .error (.Write e))) ∧
    (∀ a b c e, env.openpty = .ok a → env.spawnChild = .ok b →
      env.takeWriter = .ok c → env.cloneReader = .error e →
      spawn_command env t = (t, .error (.Read e))) := by
  refine ⟨?_, ?_, ?_, ?_⟩ <;> intros <;> simp_all [spawn_command]

def ioErr : String := "boom"

def failOpenEnv : SpawnEnv :=
  { openpty := .error ioErr, spawnChild := .ok 1, takeWriter := .ok 2,
    cloneReader := .ok 3 }

/-- Witness for C5: a failed pty allocation leaves a fresh session exactly
as it was and surfaces `PtyOpen`. -/
theorem spawn_command_atomic_failure_witness :
    spawn_command failOpenEnv (PtyTerminal.new 80 24) =
      (PtyTerminal.new 80 24, .error (.PtyOpen ioErr)) :=
  (spawn_command_atomic_failure failOpenEnv (PtyTerminal.new 80 24)).1 ioErr rfl

/-! ### Reader-thread accounting (C8) -/

theorem send_input_fields (w f : Except String Unit) (d : List Nat) (t : PtyTerminal) :
    (send_input w f d t).1.writer = t.writer ∧
    (send_input w f d t).1.readersStarted = t.readersStarted ∧
    (send_input w f d t).1.liveReaders = t.liveReaders := by
  cases h : t.writer <;> cases w <;> cases f <;> simp [send_input, h]

theorem send_key_fields (w f : Except String Unit) (k : KeyEvent) (t : PtyTerminal) :
    (send_key w f k t).1.writer = t.writer ∧
    (send_key w f k t).1.readersStarted = t.readersStarted ∧
    (send_key w f k t).1.liveReaders = t.liveReaders := by
  simp only [send_key]
  split
  · exact ⟨rfl, rfl, rfl⟩
  · exact send_input_fields w f (key_event_to_bytes k) t

theorem is_running_fields (cw : Except Unit (Option Nat)) (t : PtyTerminal) :
    (is_running cw t).1.writer = t.writer ∧
    (is_running cw t).1.readersStarted = t.readersStarted ∧
    (is_running cw t).1.liveReaders = t.liveReaders := by
  unfold is_running
  split
  · exact ⟨rfl, rfl, rfl⟩
  · cases t.child with
    | none => exact ⟨rfl, rfl, rfl⟩
    | some c =>
      cases cw with
      | error e => exact ⟨rfl, rfl, rfl⟩
      | ok o => cases o <;> exact ⟨rfl, rfl, rfl⟩

/-- Per-step accounting: `readersStarted` grows by one exactly on a fully
successful spawn. -/
theorem step_readersStarted (t : PtyTerminal) (op : PtyOp) :
    (step t op).readersStarted =
      t.readersStarted + (if isOkSpawn op then 1 else 0) := by
  cases op with
  | spawnCmd env =>
    obtain ⟨o, s, w, r⟩ := env
    cases o <;> cases s <;> cases w <;> cases r <;>
      simp [step, spawn_command, isOkSpawn, SpawnEnv.allOk]
  | sendInputOp w f d => simpa [step, isOkSpawn] using (send_input_fields w f d t).2.1
  | sendKeyOp w f k => simpa [step, isOkSpawn] using (send_key_fields w f k t).2.1
  | processOutputOp => rfl
  | isRunningOp cw => simpa [step, isOkSpawn] using (is_running_fields cw t).2.1
  | resizeOp c r => rfl
  | killOp => rfl
  | readerChunkOp d =>
    simp only [step, readerChunk, isOkSpawn]
    split <;> rfl
  | readerExitOp =>
    simp only [step, readerExit, isOkSpawn]
    split <;> rfl

/-- Per-step accounting: `liveReaders` never grows except on a fully
successful spawn. -/
theorem step_liveReaders_le (t : PtyTerminal) (op : PtyOp) :
    (step t op).liveReaders ≤ t.liveReaders + (if isOkSpawn op then 1 else 0) := by
  cases op with
  | spawnCmd env =>
    obtain ⟨o, s, w, r⟩ := env
    cases o <;> cases s <;> cases w <;> cases r <;>
      simp [step, spawn_command, isOkSpawn, SpawnEnv.allOk]
  | sendInputOp w f d =>
    simp only [step, isOkSpawn, if_neg Bool.false_ne_true]
    rw [(send_input_fields w f d t).2.2]
    omega
  | sendKeyOp w f k =>
    simp only [step, isOkSpawn, if_neg Bool.false_ne_true]
    rw [(send_key_fields w f k t).2.2]
    omega
  | processOutputOp => simp [step, isOkSpawn, process_output]
  | isRunningOp cw =>
    simp only [step, isOkSpawn, if_neg Bool.false_ne_true]
    rw [(is_running_fields cw t).2.2]
    omega
  | resizeOp c r => simp [step, isOkSpawn, resize, Vt100State.set_size]
  | killOp => simp [step, isOkSpawn, kill]
  | readerChunkOp d =>
    simp only [step, readerChunk, isOkSpawn]
    split <;> simp
  | readerExitOp =>
    simp only [step, readerExit, isOkSpawn]
    split <;> simp

theorem runOps_readersStarted (ops : List PtyOp) (t : PtyTerminal) :
    (runOps t ops).readersStarted = t.readersStarted + ops.countP isOkSpawn := by
  induction ops generalizing t with
  | nil => rfl
  | cons op ops ih =>
    show (runOps (step t op) ops).readersStarted = _
    rw [ih (step t op), step_readersStarted, List.countP_cons]
    split <;> omega

theorem runOps_liveReaders_le (ops : List PtyOp) (t : PtyTerminal) :
    (runOps t ops).liveReaders ≤ t.liveReaders + ops.countP isOkSpawn := by
  induction ops generalizing t with
  | nil => exact Nat.le_refl _
  | cons op ops ih =>
    show (runOps (step t op) ops).liveReaders ≤ _
    have h1 := ih (step t op)
    have h2 := step_liveReaders_le t op
    rw [List.countP_cons]
    by_cases hc : isOkSpawn op = true
    · rw [if_pos hc] at h2 ⊢
      omega
    · rw [if_neg hc] at h2 ⊢
      omega

def okSpawnEnv : SpawnEnv :=
  { openpty := .ok 0, spawnChild := .ok 1, takeWriter := .ok 2, cloneReader := .ok 3 }

/-- Claim C8, counterexample: nothing guards `spawn_command` against a
second call, so an execution with two successful spawns has two live
reader threads appending to the same shared output buffer. -/
theorem two_spawns_two_live_readers :
    ¬ ((runOps (PtyTerminal.new 80 24)
          [.spawnCmd okSpawnEnv, .spawnCmd okSpawnEnv]).liveReaders ≤ 1) := by
  decide

/-- Claim C8 (amended): every successful `spawn_command` call starts
exactly one reader thread on the shared buffer of the session (over any
execution, threads started = number of fully successful spawns); and in
any execution in which at most one `spawn_command` call succeeds, at most
one reader thread is ever live. -/
theorem reader_thread_accounting (ops : List PtyOp) (cols rows : Nat) :
    (runOps (PtyTerminal.new cols rows) ops).readersStarted = ops.countP isOkSpawn ∧
    (ops.countP isOkSpawn ≤ 1 →
      (runOps (PtyTerminal.new cols rows) ops).liveReaders ≤ 1) := by
  constructor
  · have h1 := runOps_readersStarted ops (PtyTerminal.new cols rows)
    have h0 : (PtyTerminal.new cols rows).readersStarted = 0 := rfl
    rw [h0] at h1
    omega
  · intro h
    have hle := runOps_liveReaders_le ops (PtyTerminal.new cols rows)
    have h0 : (PtyTerminal.new cols rows).liveReaders = 0 := rfl
    rw [h0] at hle
    omega

/-- Witness for C8: one successful spawn yields one started reader and at
most one live reader. -/
theorem reader_thread_accounting_witness :
    (runOps (PtyTerminal.new 80 24) [.spawnCmd okSpawnEnv]).readersStarted = 1 ∧
    (runOps (PtyTerminal.new 80 24) [.spawnCmd okSpawnEnv]).liveReaders ≤ 1 :=
  ⟨((reader_thread_accounting [.spawnCmd okSpawnEnv] 80 24).1).trans (by decide),
    (reader_thread_accounting [.spawnCmd okSpawnEnv] 80 24).2 (by decide)⟩

/-! ### Input path (C7) -/

theorem step_writer_none_iff (t : PtyTerminal) (op : PtyOp) :
    ((step t op).writer = none) ↔ (t.writer = none ∧ isOkSpawn op = false) := by
  cases op with
  | spawnCmd env =>
    obtain ⟨o, s, w, r⟩ := env
    cases o <;> cases s <;> cases w <;> cases r <;>
      simp [step, spawn_command, isOkSpawn, SpawnEnv.allOk]
  | sendInputOp w f d => simp [step, isOkSpawn, (send_input_fields w f d t).1]
  | sendKeyOp w f k => simp [step, isOkSpawn, (send_key_fields w f k t).1]
  | processOutputOp => simp [step, isOkSpawn, process_output]
  | isRunningOp cw => simp [step, isOkSpawn, (is_running_fields cw t).1]
  | resizeOp c r => simp [step, isOkSpawn, resize, Vt100State.set_size]
  | killOp => simp [step, isOkSpawn, kill]
  | readerChunkOp d =>
    simp only [step, readerChunk, isOkSpawn]
    split <;> simp
  | readerExitOp =>
    simp only [step, readerExit, isOkSpawn]
    split <;> simp

theorem runOps_writer_none_iff (ops : List PtyOp) (t : PtyTerminal) :
    ((runOps t ops).writer = none) ↔
      (t.writer = none ∧ ops.countP isOkSpawn = 0) := by
  induction ops generalizing t with
  | nil => simp [runOps]
  | cons op ops ih =>
    show ((runOps (step t op) ops).writer = none) ↔ _
    rw [ih (step t op), step_writer_none_iff, List.countP_cons]
    cases h : isOkSpawn op <;> simp [h]

/-- Claim C7, counterexample: `kill()` does not clear the writer, so on a
session that was spawned and then torn down, `send_input` does not fail
with the "not running" error — the claim says a torn-down session has no
writer. -/
theorem send_input_after_kill_not_notrunning :
    (send_input (.ok ()) (.ok ()) [104]
        (kill ((spawn_command okSpawnEnv (PtyTerminal.new 80 24)).1))).2 ≠
      .error PtyError.NotRunning := by
  decide

/-- Claim C7 (amended): `send_key` encodes via the key encoder and is a
no-op returning success when the encoding is empty, otherwise it delegates
to `send_input`; `send_input` fails with the "not running" error exactly
when no writer exists, and when a writer exists and the OS write and flush
succeed it appends the bytes to the input stream of the child and flushes; a
writer is absent exactly when the session has never been successfully
spawned — teardown via `kill` does not remove it. -/
theorem send_key_send_input_spec (t : PtyTerminal) (wres fres : Except String Unit)
    (data : List Nat) (key : KeyEvent) :
    ((send_input wres fres data t).2 = .error PtyError.NotRunning ↔
      t.writer = none) ∧
    (key_event_to_bytes key = [] → send_key wres fres key t = (t, .ok ())) ∧
    (key_event_to_bytes key ≠ [] →
      send_key wres fres key t = send_input wres fres (key_event_to_bytes key) t) ∧
    (t.writer ≠ none →
      send_input (.ok ()) (.ok ()) data t =
        ({ t with written := t.written ++ data, flushes := t.flushes + 1 }, .ok ())) ∧
    (∀ ops cols rows,
      ((runOps (PtyTerminal.new cols rows) ops).writer = none ↔
        ops.countP isOkSpawn = 0)) := by
  refine ⟨?_, ?_, ?_, ?_, ?_⟩
  · cases h : t.writer <;> cases wres <;> cases fres <;> simp [send_input, h]
  · intro h
    simp [send_key, h]
  · intro h
    have he : (key_event_to_bytes key).isEmpty = false := by
      cases hk : key_event_to_bytes key with
      | nil => exact absurd hk h
      | cons a l => rfl
    simp [send_key, he]
  · intro h
    cases hw : t.writer with
    | none => exact absurd hw h
    | some w => simp [send_input, hw]
  · intro ops cols rows
    rw [runOps_writer_none_iff]
    simp [PtyTerminal.new]

/-- Witness for C7: a never-spawned session has no writer and `send_input`
on it fails with the "not running" error. -/
theorem send_key_send_input_spec_witness :
    (send_input (Except.ok ()) (Except.ok ()) [104] (PtyTerminal.new 80 24)).2 =
      Except.error PtyError.NotRunning :=
  (send_key_send_input_spec (PtyTerminal.new 80 24) (Except.ok ()) (Except.ok ())
      [104] { code := KeyCode.Enter, modifiers := { control := false, alt := false } }).1.mpr
    rfl

/-! ### Resize (C9) -/

/-- Claim C9: for every session and every `(cols, rows)`, `resize` returns
success, stores the new size and sets the logical dimensions of the emulator,
and leaves every other session field — output buffer, writer, child
handle, running flag, exit status, fed bytes, scrollback bound, stream of
written input, reader-thread counts — unchanged; and it communicates no
size change to the OS-level pseudo-terminal device (`osResizes`
unchanged: the source never calls a device-level resize). -/
theorem resize_spec (t : PtyTerminal) (cols rows : Nat) :
    resize cols rows t =
      ({ t with
          size := { rows := rows, cols := cols, pixel_width := 0, pixel_height := 0 }
          vt := { t.vt with rows := rows, cols := cols } }, .ok ()) ∧
    (resize cols rows t).1.size =
      { rows := rows, cols := cols, pixel_width := 0, pixel_height := 0 } ∧
    (resize cols rows t).1.vt.rows = rows ∧
    (resize cols rows t).1.vt.cols = cols ∧
    (resize cols rows t).1.output_buffer = t.output_buffer ∧
    (resize cols rows t).1.writer = t.writer ∧
    (resize cols rows t).1.child = t.child ∧
    (resize cols rows t).1.running = t.running ∧
    (resize cols rows t).1.exit_status = t.exit_status ∧
    (resize cols rows t).1.vt.processed = t.vt.processed ∧
    (resize cols rows t).1.vt.scrollback = t.vt.scrollback ∧
    (resize cols rows t).1.written = t.written ∧
    (resize cols rows t).1.flushes = t.flushes ∧
    (resize cols rows t).1.readersStarted = t.readersStarted ∧
    (resize cols rows t).1.liveReaders = t.liveReaders ∧
    (resize cols rows t).1.osResizes = t.osResizes ∧
    (resize cols rows t).2 = .ok () := by
  refine ⟨rfl, rfl, rfl, rfl, rfl, rfl, rfl, rfl, rfl, rfl, rfl, rfl, rfl, rfl, rfl,
    rfl, rfl⟩

end ArchInstall
